import Mathlib

set_option autoImplicit false

/-
Verification development for the netkeiba race-result scraper (scraper.py).

The scraper is a linear pipeline: classify the URL, render the page through a
browser-automation engine, run four extraction passes over the rendered DOM,
and assemble one JSON record.  The DOM and the automation engine are external
collaborators; they are embedded here as explicit page-model structures whose
fields hold exactly the texts and elements the source queries.  Each Python
function is translated into a Lean function of the same name over that model.

Modelling notes, applying throughout:
* Python `str.strip()` is modelled by `pyStrip`, which removes ASCII
  whitespace (space, tab, CR, LF) from both ends.
* The regex class `\d` and `str.isdigit` are modelled by `Char.isDigit`
  (ASCII digits); the claims under study do not involve non-ASCII digits.
* `urllib.parse.unquote` is modelled per code point: each `%xx` hex escape
  becomes the character with that code; this agrees with CPython for ASCII
  escapes, which is all the claims need.
* A DOM read that raises is modelled explicitly where a claim depends on it
  (corner rows, lap-table rows); elsewhere reads are total on the page model.
-/

namespace Scraper

/-- Model of Python `str.strip()` (restricted to ASCII whitespace). -/
def pyStrip (s : String) : String :=
  String.mk (((s.toList.dropWhile Char.isWhitespace).reverse.dropWhile Char.isWhitespace).reverse)

/-- Model of Python `c in s` for a single character `c`. -/
def hasChar (s : String) (c : Char) : Bool :=
  s.toList.any (fun x => x == c)

/-- Whether `n` is an initial segment of the second list. -/
def leadMatch : List Char → List Char → Bool
  | [], _ => true
  | _ :: _, [] => false
  | n :: ns, h :: hs => (n == h) && leadMatch ns hs

/-- Model of Python `needle in hay` (substring containment). -/
def hasSub (needle : List Char) : List Char → Bool
  | [] => needle.isEmpty
  | c :: t => leadMatch needle (c :: t) || hasSub needle t

/-- Preprocessing done by `urllib.parse.urlsplit`: strip leading/trailing
C0-control-or-space characters, then remove every tab, CR and LF. -/
def urlPreprocess (cs : List Char) : List Char :=
  (((cs.dropWhile (fun c => decide (c.toNat ≤ 32))).reverse.dropWhile
      (fun c => decide (c.toNat ≤ 32))).reverse).filter
    (fun c => !(c == '\t') && !(c == '\r') && !(c == '\n'))

/-- Characters allowed in a URL scheme after the first letter. -/
def schemeChar (c : Char) : Bool :=
  c.isAlpha || c.isDigit || c == '+' || c == '-' || c == '.'

/-- Whether the first character is an ASCII letter. -/
def headIsAlpha : List Char → Bool
  | [] => false
  | c :: _ => c.isAlpha

/-- Scheme removal step of `urlsplit`: if the text before the first `:` is a
well-formed scheme, drop it (and the colon); otherwise leave the URL as is. -/
def dropScheme (cs : List Char) : List Char :=
  match cs.findIdx? (fun c => c == ':') with
  | none => cs
  | some i =>
    if decide (0 < i) && (cs.take i).all schemeChar && headIsAlpha cs then
      cs.drop (i + 1)
    else cs

/-- Netloc extraction step of `urlsplit`: after a leading `//`, the netloc
runs until the first `/`, `?` or `#`.  A netloc with an unmatched square
bracket makes `urlsplit` raise `ValueError` ("Invalid IPv6 URL"), modelled
as `none`. -/
def splitNetloc (cs : List Char) : Option (List Char × List Char) :=
  if leadMatch ['/', '/'] cs then
    let after := cs.drop 2
    let netloc := after.takeWhile (fun c => !(c == '/') && !(c == '?') && !(c == '#'))
    if (netloc.contains '[' && !netloc.contains ']') ||
       (netloc.contains ']' && !netloc.contains '[') then
      none
    else
      some (netloc, after.drop netloc.length)
  else some ([], cs)

/-- Model of `urllib.parse.urlparse` restricted to the two components the
scraper uses: the netloc and the query string.  Returns `none` exactly when
`urlparse` raises.  The fragment is split off before the query, as in
CPython (`url.split('#', 1)` then `url.split('?', 1)`). -/
def pyUrlsplitNQ (url : String) : Option (List Char × String) :=
  let cs := dropScheme (urlPreprocess url.toList)
  match splitNetloc cs with
  | none => none
  | some (netloc, rest) =>
    let beforeFrag := rest.takeWhile (fun c => !(c == '#'))
    let query :=
      if beforeFrag.contains '?' then
        (beforeFrag.dropWhile (fun c => !(c == '?'))).drop 1
      else []
    some (netloc, String.mk query)

/-- Whether a character is a hexadecimal digit. -/
def hexDigit (c : Char) : Bool :=
  c.isDigit || (decide ('a' ≤ c) && decide (c ≤ 'f')) || (decide ('A' ≤ c) && decide (c ≤ 'F'))

/-- Numeric value of a hexadecimal digit. -/
def hexVal (c : Char) : Nat :=
  if c.isDigit then c.toNat - '0'.toNat
  else if decide ('a' ≤ c) && decide (c ≤ 'f') then c.toNat - 'a'.toNat + 10
  else c.toNat - 'A'.toNat + 10

/-- Model of `urllib.parse.unquote`: decode `%xx` escapes, leaving a `%`
not followed by two hex digits untouched (see the file header for the
code-point caveat on non-ASCII escapes). -/
def unquoteChars : List Char → List Char
  | [] => []
  | '%' :: a :: b :: rest =>
    if hexDigit a && hexDigit b then
      Char.ofNat (16 * hexVal a + hexVal b) :: unquoteChars rest
    else '%' :: unquoteChars (a :: b :: rest)
  | c :: rest => c :: unquoteChars rest

/-- The `.replace('+', ' ')` step of `parse_qsl`. -/
def plusToSpace (cs : List Char) : List Char :=
  cs.map (fun c => if c == '+' then ' ' else c)

/-- Model of Python `str.split(sep)` for a one-character separator. -/
def splitOnChar (c : Char) : List Char → List (List Char)
  | [] => [[]]
  | x :: xs =>
    let r := splitOnChar c xs
    if x == c then [] :: r
    else
      match r with
      | h :: t => (x :: h) :: t
      | [] => [[x]]

/-- Model of Python `str.split(sep, 1)`: split at the first occurrence,
`none` when the separator is absent. -/
def splitOnceChar (c : Char) (cs : List Char) : Option (List Char × List Char) :=
  if cs.contains c then
    some (cs.takeWhile (fun x => !(x == c)), (cs.dropWhile (fun x => !(x == c))).drop 1)
  else none

/-- Model of `urllib.parse.parse_qsl` with default arguments: split the query
on `&`; skip empty fields, fields without `=`, and fields with an empty
value (keep_blank_values is False); `+` becomes space and `%xx` escapes are
decoded in both name and value. -/
def parse_qsl (qs : String) : List (String × String) :=
  (splitOnChar '&' qs.toList).filterMap (fun nv =>
    if nv.isEmpty then none
    else
      match splitOnceChar '=' nv with
      | none => none
      | some (n, v) =>
        if v.isEmpty then none
        else some (String.mk (unquoteChars (plusToSpace n)),
                   String.mk (unquoteChars (plusToSpace v))))

/-- Model of `extract_race_id` (scraper.py lines 11-19):
`parse_qs(urlparse(url).query).get('race_id', [''])[0]`, with the
surrounding `try/except` returning "unknown" when `urlparse` raises.
`parse_qs` groups `parse_qsl` pairs by name in order, so the `[0]` lookup
is the value of the first pair named `race_id`; when no such pair exists the
`get` default makes the result the empty string. -/
def extract_race_id (url : String) : String :=
  match pyUrlsplitNQ url with
  | none => "unknown"
  | some (_, q) =>
    match (parse_qsl q).find? (fun p => p.1 == "race_id") with
    | some p => p.2
    | none => ""

/-- Model of `detect_race_type` (scraper.py lines 22-29): substring tests on
the whole URL string. -/
def detect_race_type (url : String) : String :=
  if hasSub "nar.netkeiba.com".toList url.toList then "nar"
  else if hasSub "race.netkeiba.com".toList url.toList then "jra"
  else "unknown"

/-- First maximal run of digits in a string, as matched by
`re.search(r'(\d+)R?', text).group(1)`. -/
def firstDigitRun : List Char → Option String
  | [] => none
  | c :: rest =>
    if c.isDigit then some (String.mk (c :: rest.takeWhile Char.isDigit))
    else firstDigitRun rest

/-- Greedy match of `\d{1,2}` followed by the separator `sep`, with the
backtracking `re` performs: two digits then `sep` if possible, else one
digit then `sep`.  Returns the digits and the remaining input. -/
def matchOneTwoDigits (sep : Char) : List Char → Option (List Char × List Char)
  | [] => none
  | a :: rest =>
    if !a.isDigit then none
    else
      match rest with
      | [] => none
      | b :: rest2 =>
        if b.isDigit then
          match rest2 with
          | [] => none
          | c :: rest3 => if c == sep then some ([a, b], rest3) else none
        else if b == sep then some ([a], rest2)
        else none

/-- Match of `(\d{4})年(\d{1,2})月(\d{1,2})日` anchored at the head of the
input, returning the three captured groups. -/
def matchDateAt : List Char → Option (String × String × String)
  | y1 :: y2 :: y3 :: y4 :: sep :: rest =>
    if y1.isDigit && y2.isDigit && y3.isDigit && y4.isDigit && sep == '年' then
      match matchOneTwoDigits '月' rest with
      | none => none
      | some (m, rest2) =>
        match matchOneTwoDigits '日' rest2 with
        | none => none
        | some (d, _) => some (String.mk [y1, y2, y3, y4], String.mk m, String.mk d)
    else none
  | _ => none

/-- Model of `re.search(r'(\d{4})年(\d{1,2})月(\d{1,2})日', text)`: try the
pattern at each position left to right and return the first match. -/
def dateSearch : List Char → Option (String × String × String)
  | [] => none
  | c :: rest =>
    match matchDateAt (c :: rest) with
    | some r => some r
    | none => dateSearch rest

/-- Model of Python `str.zfill` for the digit-only strings it is applied to
here: left-pad with zeros to the given width. -/
def zfill (width : Nat) (s : String) : String :=
  if width ≤ s.length then s
  else String.mk (List.replicate (width - s.length) '0') ++ s

/-- A cell of a results-table row, carrying the inner text of the cell and
of each descendant the source queries inside a cell (`none` when
`query_selector` finds no such descendant). -/
structure Cell where
  innerText : String := ""
  rankSub : Option String := none
  divSub : Option String := none
  horseNameSub : Option String := none
  raceTimeSub : Option String := none
  passageSub : Option String := none
deriving Repr, DecidableEq

/-- A row of the results table: either its processing raises (any DOM call
on it throws, caught by the per-row `except` and skipped), or it yields a
list of `td` cells. -/
inductive RowSource where
  | throws
  | ok (cells : List Cell)
deriving Repr, DecidableEq

/-- One emitted per-horse record (the `horse_data` dict). -/
structure HorseData where
  rank : String
  frame : String
  horse_number : String
  horse_name : String
  time : String
  last_3f : String
  corner_passage : Option String := none
deriving Repr, DecidableEq

/-- Cell lookup; all uses are guarded by the length checks the source
performs before indexing. -/
def cellAt (cells : List Cell) (i : Nat) : Cell :=
  (cells.get? i).getD {}

/-- The raw corner-passage text read for a row (scraper.py lines 223-227):
empty for the NAR layout (`corner_passage_index` is `None`), otherwise the
`.PassageRate` text of cell 12 when the row has more than 12 cells. -/
def rawCornerPassage (race_type : String) (cells : List Cell) : String :=
  match (if race_type == "nar" then (none : Option Nat) else some 12) with
  | none => ""
  | some ci => if ci < cells.length then ((cellAt cells ci).passageSub).getD "" else ""

/-- Per-row body of `extract_horses_data` (scraper.py lines 179-246).
`none` models the `continue` that skips a row with fewer cells than the
layout minimum (12 for NAR, 13 for JRA/unknown).  Field reads default to
the empty string when the queried sub-element is absent; every stored field
is stripped; `corner_passage` is stored only when the raw text is truthy. -/
def rowToHorse (race_type : String) (cells : List Cell) : Option HorseData :=
  let minCells : Nat := if race_type == "nar" then 12 else 13
  if cells.length < minCells then none
  else
    let time_index := 7
    let last_3f_index := 11
    let rank := ((cellAt cells 0).rankSub).getD ""
    let frame := ((cellAt cells 1).divSub).getD ""
    let horse_num := ((cellAt cells 2).divSub).getD ""
    let horse_name := ((cellAt cells 3).horseNameSub).getD ""
    let time := ((cellAt cells time_index).raceTimeSub).getD ""
    let last_3f := if last_3f_index < cells.length then (cellAt cells last_3f_index).innerText else ""
    let corner_passage := rawCornerPassage race_type cells
    some { rank := pyStrip rank, frame := pyStrip frame, horse_number := pyStrip horse_num,
           horse_name := pyStrip horse_name, time := pyStrip time, last_3f := pyStrip last_3f,
           corner_passage := if corner_passage == "" then none else some (pyStrip corner_passage) }

/-- The row loop of `extract_horses_data`: a throwing row is caught, logged
and skipped; a short row is skipped by `rowToHorse`; the rest are appended
in order. -/
def rowsToHorses (race_type : String) (rows : List RowSource) : List HorseData :=
  rows.filterMap (fun r =>
    match r with
    | .throws => none
    | .ok cells => rowToHorse race_type cells)

/-- The page as seen by `extract_horses_data`: which selectors appear within
their bounded waits, and the rows each rows-selector matches. -/
structure HorsePage where
  selectorAvailable : String → Bool
  rowsFor : String → List RowSource

/-- Primary results-table selector (scraper.py lines 153-158). -/
def primary_table_selector (race_type : String) : String :=
  if race_type == "nar" then "table.RaceTable01.ResultMain"
  else "table.RaceTable01.RaceCommon_Table"

/-- Fallback results-table selector (scraper.py lines 166-171). -/
def fallback_table_selector (race_type : String) : String :=
  if race_type == "nar" then "table.RaceTable01" else "table.RaceCommon_Table"

/-- Rows selector paired with the primary table selector. -/
def primary_rows_selector (race_type : String) : String :=
  primary_table_selector race_type ++ " tbody tr"

/-- Rows selector paired with the fallback table selector. -/
def fallback_rows_selector (race_type : String) : String :=
  fallback_table_selector race_type ++ " tbody tr"

/-- Model of `extract_horses_data` (scraper.py lines 148-248): wait for the
layout-specific primary table selector; on timeout wait for the looser
fallback selector (reassigning the rows selector); if both waits fail
return the empty list; otherwise run the row loop over the matched rows. -/
def extract_horses_data (pg : HorsePage) (race_type : String) : List HorseData :=
  if pg.selectorAvailable (primary_table_selector race_type) then
    rowsToHorses race_type (pg.rowsFor (primary_rows_selector race_type))
  else if pg.selectorAvailable (fallback_table_selector race_type) then
    rowsToHorses race_type (pg.rowsFor (fallback_rows_selector race_type))
  else []

/-- A row of the `table.Corner_Num` table: either its processing raises
(aborting the whole guarded extraction), or it yields the optional
`th strong` header text and the optional first `td` text. -/
inductive CornerRow where
  | throws
  | ok (header : Option String) (td : Option String)
deriving Repr, DecidableEq

/-- Python-dict insertion on an association list kept in insertion order:
an existing key is overwritten in place, a new key is appended. -/
def dictInsert (d : List (String × String)) (k v : String) : List (String × String) :=
  if d.any (fun p => p.1 == k) then d.map (fun p => if p.1 == k then (k, v) else p)
  else d ++ [(k, v)]

/-- Loop of `extract_corner_data`: the dict is created before the `try` and
mutated in place, so when a row raises, the exception is caught at the
whole-extraction level and the entries accumulated so far are returned. -/
def cornerLoop (acc : List (String × String)) : List CornerRow → List (String × String)
  | [] => acc
  | .throws :: _ => acc
  | .ok header td :: rest =>
    match header with
    | none => cornerLoop acc rest
    | some h =>
      match td with
      | none => cornerLoop acc rest
      | some t => cornerLoop (dictInsert acc ("corner_" ++ h) t) rest

/-- Model of `extract_corner_data` (scraper.py lines 251-270). -/
def extract_corner_data (rows : List CornerRow) : List (String × String) :=
  cornerLoop [] rows

/-- A row of the `table.Race_HaronTime` lap table.  Reading the texts of its
`th` (resp. `td`) children either raises (`none`) or yields the list of
texts. -/
structure LapRow where
  thTexts : Option (List String)
  tdTexts : Option (List String)
deriving Repr, DecidableEq

/-- The `lap_data` mapping: three optional keys. -/
structure LapData where
  distances : Option (List String) := none
  cumulative_times : Option (List String) := none
  interval_times : Option (List String) := none
deriving Repr, DecidableEq

/-- Model of `extract_lap_times` (scraper.py lines 273-315).  `lap_data` is
created before the `try`; the `distances` and `cumulative_times` keys are
both assigned only inside the `len(rows) >= 2` block, after the cumulative
cells were read; `interval_times` is assigned inside the `len(rows) >= 3`
block.  A read that raises aborts the whole guarded block and the mapping
as assigned so far is returned. -/
def extract_lap_times (lapTable : Option (List LapRow)) : LapData :=
  match lapTable with
  | none => {}
  | some rows =>
    match rows.get? 0 with
    | none => {}
    | some r0 =>
      match r0.thTexts with
      | none => {}
      | some _distances =>
        match rows.get? 1 with
        | none => {}
        | some r1 =>
          match r1.tdTexts with
          | none => {}
          | some cum =>
            let d1 : LapData := { distances := some _distances, cumulative_times := some cum }
            match rows.get? 2 with
            | none => d1
            | some r2 =>
              match r2.tdTexts with
              | none => d1
              | some iv => { d1 with interval_times := some iv }

/-- A lap row none of whose reads raises. -/
def pureLapRow (p : List String × List String) : LapRow :=
  { thTexts := some p.1, tdTexts := some p.2 }

/-- The `race_info` mapping: optional metadata keys. -/
structure RaceInfo where
  race_name : Option String := none
  distance : Option String := none
  track_condition : Option String := none
  race_class : Option String := none
  race_number : Option String := none
  race_date : Option String := none
  page_title : Option String := none
deriving Repr, DecidableEq

/-- Distance acceptance test (scraper.py line 102): `'m' in text and
('ダ' in text or '芝' in text)`. -/
def distCond (t : String) : Bool :=
  hasChar t 'm' && (hasChar t 'ダ' || hasChar t '芝')

/-- Track-condition acceptance test (scraper.py line 105): membership in the
closed four-string list. -/
def condCond (t : String) : Bool :=
  t == "良" || t == "稍重" || t == "重" || t == "不良"

/-- Race-class acceptance test (scraper.py lines 113-114). -/
def classCond (t : String) : Bool :=
  (hasChar t 'A' && t.toList.any Char.isDigit) || hasSub "サラ系".toList t.toList ||
    t == "新馬" || t == "未勝利" || t == "1勝クラス" || t == "2勝クラス" ||
    t == "3勝クラス" || t == "オープン" || t == "G3" || t == "G2" || t == "G1"

/-- Body of the `.RaceData01 span` loop (scraper.py lines 98-106), acting on
the pair (distance, track_condition): `if` the distance test matches, store
the text as distance, `elif` it is one of the four condition strings, store
it as track condition. -/
def data1Step (st : Option String × Option String) (t : String) : Option String × Option String :=
  if distCond t then (some t, st.2)
  else if condCond t then (st.1, some t)
  else st

/-- Body of the `.RaceData02 span` loop (scraper.py lines 110-115): store the
text as race class when the class test matches. -/
def data2Step (st : Option String) (t : String) : Option String :=
  if classCond t then some t else st

/-- The rendered page as seen by the four extraction passes: the texts the
source queries, plus the results-table view. -/
structure Page where
  raceName : Option String
  raceData1Spans : List String
  raceData2Spans : List String
  raceNum : Option String
  title : Option String
  horse : HorsePage
  cornerRows : List CornerRow
  lapTable : Option (List LapRow)

/-- Model of `extract_race_info` (scraper.py lines 80-145).  The race-title
selector is `.RaceName` in both layout branches.  The `.RaceData01 span`
loop assigns distance/track condition, each later match overwriting the
earlier; the `.RaceData02 span` loop likewise for the race class.  The race
number is the first digit run of the `.RaceNum` text; the race date is the
first `YYYY年M月D日` match in the stripped page title, zero-padded to
`YYYY/MM/DD`.  The `page_title` fallback fires when `race_name` is missing
or empty. -/
def extract_race_info (pg : Page) (race_type : String) : RaceInfo :=
  let _race_title_selector := if race_type == "nar" then ".RaceName" else ".RaceName"
  let race_name := pg.raceName.map pyStrip
  let dc := pg.raceData1Spans.foldl (fun st item => data1Step st (pyStrip item)) (none, none)
  let race_class := pg.raceData2Spans.foldl (fun st item => data2Step st (pyStrip item)) none
  let race_number :=
    match pg.raceNum with
    | none => none
    | some s => firstDigitRun (pyStrip s).toList
  let race_date :=
    match pg.title with
    | none => none
    | some s =>
      (dateSearch (pyStrip s).toList).map
        (fun g => g.1 ++ "/" ++ zfill 2 g.2.1 ++ "/" ++ zfill 2 g.2.2)
  let page_title :=
    if (match race_name with | some s => !(s == "") | none => false) then none
    else pg.title.map pyStrip
  { race_name := race_name, distance := dc.1, track_condition := dc.2,
    race_class := race_class, race_number := race_number, race_date := race_date,
    page_title := page_title }

/-- The assembled output record (scraper.py lines 64-72). -/
structure RaceRecord where
  race_url : String
  race_id : String
  race_type : String
  race_info : RaceInfo
  horses : List HorseData
  corner_passing_order : List (String × String)
  lap_times : LapData

/-- Model of `scrape_race_data` (scraper.py lines 32-77): classify the URL,
run the four extraction passes sequentially over the rendered page, and
assemble the record. -/
def scrape_race_data (url : String) (pg : Page) : RaceRecord :=
  let race_type := detect_race_type url
  let race_id := extract_race_id url
  let race_info := extract_race_info pg race_type
  let horses_data := extract_horses_data pg.horse race_type
  let corner_data := extract_corner_data pg.cornerRows
  let lap_times := extract_lap_times pg.lapTable
  { race_url := url, race_id := race_id, race_type := race_type,
    race_info := race_info, horses := horses_data,
    corner_passing_order := corner_data, lap_times := lap_times }

/-- The last element of the list whose stripped text passes `cond`; the
spec-side reading of "each later match overwrites the earlier one". -/
def lastMatch (cond : String → Bool) : List String → Option String
  | [] => none
  | t :: rest =>
    let s := pyStrip t
    match lastMatch cond rest with
    | some x => some x
    | none => if cond s then some s else none

/-- The first option when it is `some`, the default otherwise. -/
def orDefault (o d : Option String) : Option String :=
  match o with
  | some x => some x
  | none => d

/-- A results-table view on which every selector wait times out. -/
def emptyHorsePage : HorsePage :=
  { selectorAvailable := fun _ => false, rowsFor := fun _ => [] }

/-- A page whose only content is one track-condition span. -/
def trackCondPage : Page :=
  { raceName := none, raceData1Spans := ["良"], raceData2Spans := [], raceNum := none,
    title := none, horse := emptyHorsePage, cornerRows := [], lapTable := none }

/-- A page whose title carries a concrete date. -/
def datePage : Page :=
  { raceName := none, raceData1Spans := [], raceData2Spans := [], raceNum := none,
    title := some "レース結果 2024年3月10日", horse := emptyHorsePage, cornerRows := [],
    lapTable := none }

/-- A page on which the results table is entirely absent. -/
def absentTablePage : Page :=
  { raceName := some "テスト", raceData1Spans := [], raceData2Spans := [], raceNum := none,
    title := none, horse := emptyHorsePage,
    cornerRows := [CornerRow.ok (some "1") (some "2-1")], lapTable := some [] }

/-- A thirteen-cell JRA-layout row whose corner-passage cell reads "1-1". -/
def cellsW : List Cell :=
  List.replicate 12 ({} : Cell) ++ [{ passageSub := some "1-1" }]

/-- The horse record `rowToHorse` emits for `cellsW`. -/
def horseW : HorseData :=
  { rank := "", frame := "", horse_number := "", horse_name := "", time := "", last_3f := "",
    corner_passage := some "1-1" }

/-! Theorems.  One principal theorem per claim, with a counterexample for
each claim that fails on the code and a witness for each theorem that
carries hypotheses. -/

/-- Claim C1, counterexample: for a well-formed URL with no query at all
(so the query certainly lacks `race_id`), `extract_race_id` returns the
empty string, not the literal "unknown". -/
theorem extract_race_id_missing_not_unknown :
    pyUrlsplitNQ "https://race.netkeiba.com/race/result.html" =
      some ("race.netkeiba.com".toList, "") ∧
    extract_race_id "https://race.netkeiba.com/race/result.html" = "" ∧
    extract_race_id "https://race.netkeiba.com/race/result.html" ≠ "unknown" := by
  refine ⟨by decide, by decide, by decide⟩

/-- Claim C1, amended: when URL parsing raises, `extract_race_id` returns
"unknown"; when parsing succeeds and the parsed query holds no `race_id`
pair, it returns the empty string (the `get` default `['']` indexed at 0),
not "unknown". -/
theorem extract_race_id_amended (url : String) :
    (pyUrlsplitNQ url = none → extract_race_id url = "unknown") ∧
    (∀ (netloc : List Char) (q : String),
        pyUrlsplitNQ url = some (netloc, q) →
        (parse_qsl q).find? (fun p => p.1 == "race_id") = none →
        extract_race_id url = "") := by
  constructor
  · intro h
    simp [extract_race_id, h]
  · intro netloc q h hq
    simp [extract_race_id, h, hq]

/-- Claim C1, witness: both branches of the amended statement at concrete
URLs (an unmatched-bracket netloc raises; a query without `race_id`). -/
theorem extract_race_id_amended_witness :
    extract_race_id "http://[::1/x?race_id=5" = "unknown" ∧
    extract_race_id "http://x/?a=1" = "" := by
  refine ⟨(extract_race_id_amended "http://[::1/x?race_id=5").1 (by decide),
    (extract_race_id_amended "http://x/?a=1").2 "x".toList "a=1" (by decide) (by decide)⟩

/-- The corner loop stops at the first throwing row and returns the dict
accumulated so far. -/
theorem cornerLoop_append_throws (pre rest : List CornerRow) :
    ∀ acc, cornerLoop acc (pre ++ CornerRow.throws :: rest) = cornerLoop acc pre := by
  induction pre with
  | nil => intro acc; rfl
  | cons r pre ih =>
    intro acc
    cases r with
    | throws => rfl
    | ok header td =>
      cases header with
      | none => exact ih acc
      | some h =>
        cases td with
        | none => exact ih acc
        | some t => exact ih (dictInsert acc ("corner_" ++ h) t)

/-- Claim C2, counterexample: an exception part-way through the corner loop
does not discard the entries accumulated before the failure point; the
extractor returns them rather than an empty mapping. -/
theorem corner_partial_results_retained_cex :
    extract_corner_data [CornerRow.ok (some "1") (some "3-2-1"), CornerRow.throws] =
      [("corner_1", "3-2-1")] ∧
    ([("corner_1", "3-2-1")] : List (String × String)) ≠ [] := by
  refine ⟨by decide, by decide⟩

/-- Claim C2, amended: both mappings are created before the guarded region
and mutated in place, so an exception part-way through retains everything
assigned before the failure point.  For the corner extractor, rows before
the first throwing row are kept; for the lap extractor, a raising read of
the interval row keeps the already-assigned distances and cumulative
times. -/
theorem partial_results_retained :
    (∀ (pre rest : List CornerRow),
        extract_corner_data (pre ++ CornerRow.throws :: rest) = extract_corner_data pre) ∧
    (∀ (a b c : Option (List String)) (th td : List String) (rest : List LapRow),
        extract_lap_times (some ({ thTexts := some th, tdTexts := a } ::
            { thTexts := b, tdTexts := some td } ::
            ({ thTexts := c, tdTexts := none } : LapRow) :: rest)) =
          { distances := some th, cumulative_times := some td, interval_times := none }) := by
  constructor
  · intro pre rest
    exact cornerLoop_append_throws pre rest []
  · intro a b c th td rest
    rfl

/-- Claim C3, counterexample: a lap table with exactly one row (row 0, the
distance headers, exists) yields no `distances` key at all. -/
theorem lap_one_row_no_distances_cex :
    (extract_lap_times (some [pureLapRow (["200m"], [])])).distances = none ∧
    ([pureLapRow (["200m"], [])] : List LapRow).length = 1 := by
  refine ⟨by decide, by decide⟩

/-- Claim C3, amended: for an exception-free lap table, the `distances` and
`cumulative_times` keys are both present exactly when rows 0 and 1 both
exist (the assignments sit inside the `len(rows) >= 2` block), and
`interval_times` exactly when row 2 exists; rows beyond the available count
are omitted without error, and with zero rows the mapping is empty. -/
theorem extract_lap_times_keys (trows : List (List String × List String)) :
    (extract_lap_times (some (trows.map pureLapRow))).distances =
      (if 2 ≤ trows.length then (trows.get? 0).map Prod.fst else none) ∧
    (extract_lap_times (some (trows.map pureLapRow))).cumulative_times =
      (trows.get? 1).map Prod.snd ∧
    (extract_lap_times (some (trows.map pureLapRow))).interval_times =
      (trows.get? 2).map Prod.snd := by
  match trows with
  | [] => exact ⟨rfl, rfl, rfl⟩
  | [a] =>
    refine ⟨?_, rfl, rfl⟩
    simp [extract_lap_times, pureLapRow]
  | [a, b] =>
    refine ⟨?_, rfl, rfl⟩
    simp [extract_lap_times, pureLapRow]
  | a :: b :: c :: rest =>
    refine ⟨?_, rfl, rfl⟩
    have h2 : 2 ≤ (a :: b :: c :: rest).length := by
      simp [List.length_cons]
    simp [extract_lap_times, pureLapRow, h2]

/-- Claim C4, counterexample: a corner-passage cell whose raw text is a
single space is truthy, so the key is included, but the stored value is the
stripped text, which is empty: the emitted HorseResult carries a
present-but-empty `corner_passage`. -/
theorem corner_passage_present_but_empty_cex :
    (rowsToHorses "jra"
        [RowSource.ok (List.replicate 12 ({} : Cell) ++ [{ passageSub := some " " }])]).map
      HorseData.corner_passage = [some ""] ∧
    (some "" : Option String) ≠ none := by
  refine ⟨by decide, by decide⟩

/-- Claim C4, amended: the `corner_passage` key is present on an emitted
HorseResult exactly when the raw extracted text is non-empty; the stored
value is the stripped raw text, which is empty when the raw text was
whitespace-only (present-but-empty is possible). -/
theorem corner_passage_amended (race_type : String) (cells : List Cell) (h : HorseData)
    (hrow : rowToHorse race_type cells = some h) :
    (h.corner_passage ≠ none ↔ rawCornerPassage race_type cells ≠ "") ∧
    h.corner_passage =
      (if rawCornerPassage race_type cells == "" then none
       else some (pyStrip (rawCornerPassage race_type cells))) := by
  simp only [rowToHorse] at hrow
  split at hrow <;> split at hrow <;>
    first
    | (injection hrow with hx; subst hx;
       exact ⟨by by_cases hr : rawCornerPassage race_type cells = "" <;> simp [hr], rfl⟩)
    | injection hrow

/-- Claim C4, witness: the amended statement at a concrete thirteen-cell
JRA row whose corner-passage cell reads "1-1". -/
theorem corner_passage_amended_witness :
    (horseW.corner_passage ≠ none ↔ rawCornerPassage "jra" cellsW ≠ "") ∧
    horseW.corner_passage =
      (if rawCornerPassage "jra" cellsW == "" then none
       else some (pyStrip (rawCornerPassage "jra" cellsW))) :=
  corner_passage_amended "jra" cellsW horseW (by decide)

/-- Claim C5, counterexample: a URL whose query, not host, holds the
local-racing marker substring is classified as NAR although its netloc
(host) does not contain the marker. -/
theorem detect_race_type_host_cex :
    detect_race_type "http://example.com/?from=nar.netkeiba.com" = "nar" ∧
    pyUrlsplitNQ "http://example.com/?from=nar.netkeiba.com" =
      some ("example.com".toList, "from=nar.netkeiba.com") ∧
    hasSub "nar.netkeiba.com".toList "example.com".toList = false := by
  refine ⟨by decide, by decide, by decide⟩

/-- Claim C5, amended: the classifier tests substring containment on the
whole URL string, the NAR marker taking priority: it returns "nar" exactly
when the URL contains "nar.netkeiba.com", "jra" exactly when it does not
but contains "race.netkeiba.com", and "unknown" exactly when it contains
neither. -/
theorem detect_race_type_url_substring (url : String) :
    (detect_race_type url = "nar" ↔ hasSub "nar.netkeiba.com".toList url.toList = true) ∧
    (detect_race_type url = "jra" ↔
      (hasSub "nar.netkeiba.com".toList url.toList = false ∧
       hasSub "race.netkeiba.com".toList url.toList = true)) ∧
    (detect_race_type url = "unknown" ↔
      (hasSub "nar.netkeiba.com".toList url.toList = false ∧
       hasSub "race.netkeiba.com".toList url.toList = false)) := by
  unfold detect_race_type
  cases h1 : hasSub "nar.netkeiba.com".toList url.toList <;>
    cases h2 : hasSub "race.netkeiba.com".toList url.toList <;>
      simp [h1, h2]

/-- Claim C6: a results row with fewer cells than the layout minimum (12
for the NAR layout, 13 for the JRA layout) contributes no entry to the
output horse sequence. -/
theorem short_row_skipped (pre suf : List RowSource) (cells : List Cell) :
    (cells.length < 12 →
      rowsToHorses "nar" (pre ++ RowSource.ok cells :: suf) = rowsToHorses "nar" (pre ++ suf)) ∧
    (cells.length < 13 →
      rowsToHorses "jra" (pre ++ RowSource.ok cells :: suf) = rowsToHorses "jra" (pre ++ suf)) := by
  constructor <;> intro hlen <;>
    simp [rowsToHorses, List.filterMap_append, List.filterMap_cons, rowToHorse, hlen]

/-- Claim C6, witness: a zero-cell row is dropped from a one-row table in
both layouts. -/
theorem short_row_skipped_witness :
    rowsToHorses "nar" ([] ++ RowSource.ok [] :: []) = rowsToHorses "nar" ([] ++ []) ∧
    rowsToHorses "jra" ([] ++ RowSource.ok [] :: []) = rowsToHorses "jra" ([] ++ []) := by
  refine ⟨(short_row_skipped [] [] []).1 (by decide), (short_row_skipped [] [] []).2 (by decide)⟩

/-- A track-condition string never passes the distance test: none of the
four condition strings contains the character 'm'. -/
theorem condCond_not_dist (s : String) (h : condCond s = true) : distCond s = false := by
  simp only [condCond, Bool.or_eq_true, beq_iff_eq] at h
  rcases h with ((h | h) | h) | h <;> subst h <;> decide

/-- Invariant of the RaceData01 loop: the track-condition slot only ever
holds strings passing the closed-set test. -/
theorem data1_fold_snd_closed (l : List String) :
    ∀ st : Option String × Option String,
      (∀ u, st.2 = some u → condCond u = true) →
      ∀ s, (l.foldl (fun st item => data1Step st (pyStrip item)) st).2 = some s →
        condCond s = true := by
  induction l with
  | nil => intro st hst s hs; exact hst s hs
  | cons x xs ih =>
    intro st hst s hs
    rw [List.foldl_cons] at hs
    refine ih (data1Step st (pyStrip x)) ?_ s hs
    intro u hu
    by_cases hd : distCond (pyStrip x) = true
    · simp [data1Step, hd] at hu
      exact hst u hu
    · by_cases hc : condCond (pyStrip x) = true
      · simp [data1Step, hd, hc] at hu
        exact hu ▸ hc
      · simp [data1Step, hd, hc] at hu
        exact hst u hu

/-- Claim C7: whenever the extracted `track_condition` field is present, its
value is one of the four literal condition strings; any span text outside
this closed set never populates the field. -/
theorem track_condition_closed_set (pg : Page) (race_type s : String)
    (h : (extract_race_info pg race_type).track_condition = some s) :
    s = "良" ∨ s = "稍重" ∨ s = "重" ∨ s = "不良" := by
  have hfold : (pg.raceData1Spans.foldl (fun st item => data1Step st (pyStrip item))
      ((none : Option String), (none : Option String))).2 = some s := by
    simpa [extract_race_info] using h
  have hc := data1_fold_snd_closed pg.raceData1Spans (none, none) (by intro u hu; cases hu) s hfold
  simp only [condCond, Bool.or_eq_true, beq_iff_eq] at hc
  tauto

/-- Claim C7, witness: a page carrying the span "良" populates the field
with a member of the closed set. -/
theorem track_condition_closed_set_witness :
    (extract_race_info trackCondPage "jra").track_condition = some "良" ∧
    ("良" = "良" ∨ "良" = "稍重" ∨ "良" = "重" ∨ "良" = "不良") := by
  refine ⟨by decide, track_condition_closed_set trackCondPage "jra" "良" (by decide)⟩

/-- Claim C8: when the stripped page title contains a `YYYY年M月D日`
pattern, the extracted race date is the year, the zero-padded two-digit
month and the zero-padded two-digit day joined by slashes. -/
theorem race_date_format (pg : Page) (race_type t y m d : String)
    (ht : pg.title = some t)
    (hm : dateSearch (pyStrip t).toList = some (y, m, d)) :
    (extract_race_info pg race_type).race_date =
      some (y ++ "/" ++ zfill 2 m ++ "/" ++ zfill 2 d) := by
  have hm2 : dateSearch (pyStrip t).data = some (y, m, d) := hm
  simp [extract_race_info, ht, hm2]

/-- Claim C8, witness: a title exposing "2024年3月10日" yields the race
date "2024/03/10". -/
theorem race_date_format_witness :
    (extract_race_info datePage "nar").race_date =
      some ("2024" ++ "/" ++ zfill 2 "3" ++ "/" ++ zfill 2 "10") ∧
    "2024" ++ "/" ++ zfill 2 "3" ++ "/" ++ zfill 2 "10" = "2024/03/10" := by
  refine ⟨race_date_format datePage "nar" "レース結果 2024年3月10日" "2024" "3" "10" rfl
    (by decide), by decide⟩

/-- Claim C9: when both the layout-specific primary selector wait and the
looser fallback wait fail, the results-table extractor returns the empty
sequence and the overall record is still assembled, every other field as
usual. -/
theorem table_absent_empty_horses (url : String) (pg : Page)
    (hp : pg.horse.selectorAvailable (primary_table_selector (detect_race_type url)) = false)
    (hf : pg.horse.selectorAvailable (fallback_table_selector (detect_race_type url)) = false) :
    (scrape_race_data url pg).horses = [] ∧
    scrape_race_data url pg =
      { race_url := url, race_id := extract_race_id url, race_type := detect_race_type url,
        race_info := extract_race_info pg (detect_race_type url), horses := [],
        corner_passing_order := extract_corner_data pg.cornerRows,
        lap_times := extract_lap_times pg.lapTable } := by
  have hh : extract_horses_data pg.horse (detect_race_type url) = [] := by
    simp [extract_horses_data, hp, hf]
  exact ⟨by simp [scrape_race_data, hh], by simp [scrape_race_data, hh]⟩

/-- Claim C9, witness: a concrete JRA result URL over a page with no
matching table selector. -/
theorem table_absent_empty_horses_witness :
    (scrape_race_data "https://race.netkeiba.com/race/result.html?race_id=202406030811"
        absentTablePage).horses = [] ∧
    scrape_race_data "https://race.netkeiba.com/race/result.html?race_id=202406030811"
        absentTablePage =
      { race_url := "https://race.netkeiba.com/race/result.html?race_id=202406030811",
        race_id := extract_race_id "https://race.netkeiba.com/race/result.html?race_id=202406030811",
        race_type := detect_race_type "https://race.netkeiba.com/race/result.html?race_id=202406030811",
        race_info := extract_race_info absentTablePage
          (detect_race_type "https://race.netkeiba.com/race/result.html?race_id=202406030811"),
        horses := [],
        corner_passing_order := extract_corner_data absentTablePage.cornerRows,
        lap_times := extract_lap_times absentTablePage.lapTable } :=
  table_absent_empty_horses _ absentTablePage rfl rfl

/-- Dropping the default out of `orDefault`. -/
theorem orDefault_none (o : Option String) : orDefault o none = o := by
  cases o <;> rfl

/-- The distance slot of the RaceData01 fold holds the last span whose
stripped text passes the distance test, else the initial value. -/
theorem foldl_data1_fst (l : List String) :
    ∀ st : Option String × Option String,
      (l.foldl (fun st item => data1Step st (pyStrip item)) st).1 =
        orDefault (lastMatch distCond l) st.1 := by
  induction l with
  | nil => intro st; rfl
  | cons x xs ih =>
    intro st
    rw [List.foldl_cons, ih]
    cases hxs : lastMatch distCond xs with
    | some v => simp [lastMatch, hxs, orDefault]
    | none =>
      by_cases hd : distCond (pyStrip x) = true
      · simp [lastMatch, hxs, orDefault, data1Step, hd]
      · by_cases hc : condCond (pyStrip x) = true <;>
          simp [lastMatch, hxs, orDefault, data1Step, hd, hc]

/-- The track-condition slot of the RaceData01 fold holds the last span
whose stripped text is in the closed set, else the initial value; the
`elif` ordering is immaterial because no closed-set string passes the
distance test. -/
theorem foldl_data1_snd (l : List String) :
    ∀ st : Option String × Option String,
      (l.foldl (fun st item => data1Step st (pyStrip item)) st).2 =
        orDefault (lastMatch condCond l) st.2 := by
  induction l with
  | nil => intro st; rfl
  | cons x xs ih =>
    intro st
    rw [List.foldl_cons, ih]
    cases hxs : lastMatch condCond xs with
    | some v => simp [lastMatch, hxs, orDefault]
    | none =>
      by_cases hc : condCond (pyStrip x) = true
      · have hd : distCond (pyStrip x) = false := condCond_not_dist _ hc
        simp [lastMatch, hxs, orDefault, data1Step, hd, hc]
      · by_cases hd : distCond (pyStrip x) = true <;>
          simp [lastMatch, hxs, orDefault, data1Step, hd, hc]

/-- The RaceData02 fold holds the last span whose stripped text passes the
class test, else the initial value. -/
theorem foldl_data2 (l : List String) :
    ∀ st : Option String,
      l.foldl (fun st item => data2Step st (pyStrip item)) st =
        orDefault (lastMatch classCond l) st := by
  induction l with
  | nil => intro st; rfl
  | cons x xs ih =>
    intro st
    rw [List.foldl_cons, ih]
    cases hxs : lastMatch classCond xs with
    | some v => simp [lastMatch, hxs, orDefault]
    | none =>
      by_cases hc : classCond (pyStrip x) = true <;>
        simp [lastMatch, hxs, orDefault, data2Step, hc]

/-- Claim C10: for each of the distance, track-condition and race-class
fields, the value stored is the stripped text of the last span matching
that field's acceptance test in document order — each later match
overwrites the earlier one. -/
theorem later_match_overwrites (pg : Page) (race_type : String) :
    (extract_race_info pg race_type).distance = lastMatch distCond pg.raceData1Spans ∧
    (extract_race_info pg race_type).track_condition = lastMatch condCond pg.raceData1Spans ∧
    (extract_race_info pg race_type).race_class = lastMatch classCond pg.raceData2Spans := by
  refine ⟨?_, ?_, ?_⟩ <;>
    simp [extract_race_info, foldl_data1_fst, foldl_data1_snd, foldl_data2, orDefault_none]

end Scraper
